import Mathlib

/-!
Shallow embedding of the OSv virtio transport core (`drivers/virtio.cc`),
the virtio entropy device (`drivers/virtio-rng.cc`) and the virtio network
device datapath, with theorems checking the natural-language specification
against the code.

Machine integers are modelled as `Nat`; byte buffers as `List Nat`;
fallible operations return `Option`; stateful code is explicit state
passing or a step relation.
-/

namespace Virtio

/-! ## Transport core: wait_for_queue (virtio.cc lines 200-220)

The queue is abstracted to the number of completions sitting on the used
ring that the guest has not yet consumed (`used`), together with the
interrupt-enable flag the driver toggles (`intr`).  The predicate passed
in the source is `vring::used_ring_not_empty`; spuriously injected
completions only ever increase `used`. -/

structure WQState where
  used : Nat
  intr : Bool
deriving Repr, DecidableEq

/-- `vring::used_ring_not_empty` on the abstract queue state. -/
def used_ring_not_empty (s : WQState) : Bool :=
  s.used > 0

/-- A (possibly spurious) completion injection: the host appends `k`
elements to the used ring.  It never removes elements. -/
def inject (s : WQState) (k : Nat) : WQState :=
  ⟨s.used + k, s.intr⟩

/-- `vring::enable_interrupts` on the abstract queue state. -/
def enableIntr (s : WQState) : WQState :=
  ⟨s.used, true⟩

/-- `vring::disable_interrupts` on the abstract queue state. -/
def disableIntr (s : WQState) : WQState :=
  ⟨s.used, false⟩

/-- One evaluation of the lambda inside `wait_for_queue`
(virtio.cc lines 202-218): evaluate the predicate; if false, enable
interrupts, re-evaluate (a completion may be injected between the enable
and the recheck, which is exactly the race the code comments on); if now
true, disable interrupts; return whether elements were found.
`injAfterEnable` is the number of completions injected between
`enable_interrupts` and the recheck. -/
def waitBody (s : WQState) (injAfterEnable : Nat) : Bool × WQState :=
  let have0 := used_ring_not_empty s
  if have0 then
    (true, s)
  else
    let s1 := enableIntr s
    let s2 := inject s1 injAfterEnable
    let have1 := used_ring_not_empty s2
    if have1 then
      (true, disableIntr s2)
    else
      (false, s2)

/-- `sched::thread::wait_until` driving `waitBody`: each schedule entry
`(injSleep, injAfterEnable)` gives the completions injected while the
thread was suspended (before the body runs again) and the completions
injected between the interrupt enable and the recheck.  Returns the state
at the moment `wait_for_queue` returns, or `none` if the schedule is
exhausted with the thread still suspended. -/
def waitRun (s : WQState) : List (Nat × Nat) → Option WQState
  | [] => none
  | (injSleep, injAfterEnable) :: rest =>
    let s0 := inject s injSleep
    match waitBody s0 injAfterEnable with
    | (true, s1) => some s1
    | (false, s1) => waitRun s1 rest

/-! ## Entropy device: rng (virtio-rng.cc)

The entropy pool is a byte list; `_pool_size` is the soft capacity `P`.
`get_random_bytes` runs its body once `_consumer.wait_until` has
established `|pool| > 0`; that guard becomes a hypothesis. -/

/-- Result of one `rng::get_random_bytes` body (virtio-rng.cc lines
35-47), evaluated after `_consumer.wait_until(_mtx, |pool| > 0)` has
passed: the bytes copied into the caller buffer, the pool that remains,
the number of producer wakeups issued, and the returned count. -/
structure GetRandomResult where
  copied : List Nat
  pool : List Nat
  producerWakes : Nat
  ret : Nat
deriving Repr, DecidableEq

/-- `rng::get_random_bytes` body (virtio-rng.cc lines 35-47):
`len = min(|pool|, size)`; `copy_n(entropy.begin(), len, buf)`;
`entropy.erase(begin, begin + len)`; `_producer.wake_one()`; return
`len`. -/
def get_random_bytes (pool : List Nat) (size : Nat) : GetRandomResult :=
  let len := min pool.length size
  { copied := pool.take len
    pool := pool.drop len
    producerWakes := 1
    ret := len }

/-- `rng::refill` (virtio-rng.cc lines 72-97): requests
`remaining = P - |pool|` host-writable bytes in a single in-direction
scatter-gather entry, and after `wait_for_queue` appends the
`len` bytes the device actually returned (`host`, with
`|host| = len ≤ remaining` by the virtio contract: the device writes at
most the buffer it was given). -/
def refill (P : Nat) (pool host : List Nat) : List Nat :=
  pool ++ host

/-- The size of the host-writable buffer `rng::refill` publishes
(virtio-rng.cc line 74): `remaining = _pool_size - _entropy.size()`. -/
def refillRequest (P : Nat) (pool : List Nat) : Nat :=
  P - pool.length

/-- One iteration of the producer (`rng::worker`, virtio-rng.cc lines
59-70, followed by `rng::refill`): runs only when
`_producer.wait_until(_mtx, |pool| < P)` has passed, and the device
returned at most the `P - |pool|` bytes that were requested. -/
inductive producerStep (P : Nat) : List Nat → List Nat → Prop
  | mk (pool host : List Nat)
      (hwait : pool.length < P)
      (hlen : host.length ≤ refillRequest P pool) :
      producerStep P pool (refill P pool host)

/-- One consumer call (`rng::get_random_bytes`): runs only when the pool
is non-empty; the pool it leaves behind is the `drop`. -/
inductive consumerStep (P : Nat) : List Nat → List Nat → Prop
  | mk (pool : List Nat) (size : Nat)
      (hwait : 0 < pool.length) :
      consumerStep P pool (get_random_bytes pool size).pool

/-- Any step of the entropy device: a producer refill or a consumer
drain. -/
inductive rngStep (P : Nat) : List Nat → List Nat → Prop
  | producer {pool pool'} : producerStep P pool pool' → rngStep P pool pool'
  | consumer {pool pool'} : consumerStep P pool pool' → rngStep P pool pool'

/-! ## Network device: TX enqueue (virtio-net, tx_locked / tx_gc)

The TX vring is abstracted to the number of free descriptors and the
list of completed-but-unreclaimed chains on the used ring (each entry the
number of descriptors its reclamation frees). -/

structure TxVq where
  free : Nat
  done : List Nat
deriving Repr, DecidableEq

/-- `vring::avail_ring_has_room(n)`: at least `n` free descriptors. -/
def avail_ring_has_room (vq : TxVq) (n : Nat) : Bool :=
  n ≤ vq.free

/-- `vring::used_ring_not_empty` on the TX queue abstraction. -/
def tx_used_ring_not_empty (vq : TxVq) : Bool :=
  vq.done ≠ []

/-- `net::tx_gc` (drains every completed chain via
`get_buf_elem`/`get_buf_finalize`, then `get_buf_gc`): all completed
chains return their descriptors to the free list. -/
def tx_gc (vq : TxVq) : TxVq :=
  { free := vq.free + vq.done.sum, done := [] }

/-- `vring::add_buf` on the abstraction: consumes `sgSize` free
descriptors, or fails when not enough are free. -/
def add_buf (vq : TxVq) (sgSize : Nat) : Option TxVq :=
  if sgSize ≤ vq.free then some { vq with free := vq.free - sgSize } else none

/-- Per-TX-queue statistics (`struct txq_stats`). -/
structure TxStats where
  tx_packets : Nat
  tx_bytes : Nat
  tx_drops : Nat
  tx_err : Nat
  tx_csum : Nat
  tx_tso : Nat
deriving Repr, DecidableEq

def EINVAL : Nat := 22
def ENOBUFS : Nat := 55

/-- Inputs of one `net::tx_locked` call that the abstraction does not
track structurally: the staged scatter-gather size (header + non-empty
fragments), the total fragment bytes, whether the packet requested
checksum offload and whether `tx_offload` succeeded on it, and the
resulting header flags. -/
structure TxReq where
  sgSize : Nat
  txBytes : Nat
  offloadRequested : Bool
  offloadOk : Bool
  needsCsum : Bool
  gsoType : Nat
deriving Repr, DecidableEq

/-- `net::tx_locked` (virtio-net source, lines 658-747): on offload
failure return `EINVAL`; if the available ring lacks room for the staged
scatter-gather, drain completions via `tx_gc` when the used ring is
non-empty, otherwise fail with `ENOBUFS`; then a single `add_buf`
attempt, failing with `ENOBUFS`; finally update the statistics switch
(`0` → packets/bytes/csum/tso, `ENOBUFS` → `tx_drops++`, default →
`tx_err++`). Returns `(rc, vq, stats)`.

`tx_publish` is the tail of `tx_locked` from the `add_buf` call on: a
single publish attempt followed by the statistics switch. -/
def tx_publish (vq : TxVq) (r : TxReq) (stats : TxStats) : Nat × TxVq × TxStats :=
  match add_buf vq r.sgSize with
  | none => (ENOBUFS, vq, { stats with tx_drops := stats.tx_drops + 1 })
  | some vq2 =>
    (0, vq2,
      { stats with
        tx_packets := stats.tx_packets + 1
        tx_bytes := stats.tx_bytes + r.txBytes
        tx_csum := stats.tx_csum + (if r.needsCsum then 1 else 0)
        tx_tso := stats.tx_tso + (if r.gsoType ≠ 0 then 1 else 0) })

def tx_locked (vq : TxVq) (r : TxReq) (stats : TxStats) : Nat × TxVq × TxStats :=
  if r.offloadRequested ∧ ¬ r.offloadOk then
    (EINVAL, vq, { stats with tx_err := stats.tx_err + 1 })
  else if ¬ avail_ring_has_room vq r.sgSize then
    if tx_used_ring_not_empty vq then tx_publish (tx_gc vq) r stats
    else (ENOBUFS, vq, { stats with tx_drops := stats.tx_drops + 1 })
  else tx_publish vq r stats

/-! ## Network device: RX checksum claim validation (net::bad_rx_csum) -/

/-- `sizeof(struct ether_header)` = 14. -/
def ETHER_HDR_SIZE : Nat := 14
/-- `sizeof(struct ip)` = 20. -/
def IP_HDR_SIZE : Nat := 20
/-- `sizeof(struct udphdr)` = 8. -/
def UDP_HDR_SIZE : Nat := 8
/-- `offsetof(struct udphdr, uh_sum)` = 6. -/
def UDP_SUM_OFFSET : Nat := 6
/-- `offsetof(struct tcphdr, th_sum)` = 16. -/
def TCP_SUM_OFFSET : Nat := 16
def ETHERTYPE_VLAN : Nat := 0x8100
def ETHERTYPE_IP : Nat := 0x0800
def CSUM_DATA_VALID : Nat := 0x0400
def CSUM_PSEUDO_HDR : Nat := 0x0800

/-- The `csum_start`/`csum_offset` pair of `struct net_hdr`. -/
structure NetHdrCsum where
  csum_start : Nat
  csum_offset : Nat
deriving Repr, DecidableEq

/-- The first fragment of a received packet chain: its length
(`m_hdr.mh_len`), its bytes (`data`, read through `mtod`), and the
packet-header checksum fields `bad_rx_csum` may set. -/
structure Mbuf where
  mh_len : Nat
  data : List Nat
  csum_flags : Nat
  csum_data : Nat
deriving Repr, DecidableEq

/-- Big-endian 16-bit load at byte offset `i` (what `ntohs` of a
16-bit field stored in the frame yields); bytes beyond the list read 0. -/
def be16 (data : List Nat) (i : Nat) : Nat :=
  256 * data.getD i 0 + data.getD (i + 1) 0

/-- The EtherType `bad_rx_csum` dispatches on: the outer type, or the
encapsulated `evl_proto` when the outer type is the VLAN tag protocol. -/
def rxEthType (data : List Nat) : Nat :=
  let t := be16 data 12
  if t = ETHERTYPE_VLAN then be16 data 16 else t

/-- Marking the packet checksum-valid: `csum_flags |=
CSUM_DATA_VALID | CSUM_PSEUDO_HDR; csum_data = 0xFFFF`. -/
def markCsumOk (m : Mbuf) : Mbuf :=
  { m with
    csum_flags := m.csum_flags ||| (CSUM_DATA_VALID ||| CSUM_PSEUDO_HDR)
    csum_data := 0xFFFF }

/-- `net::bad_rx_csum` (virtio-net source, lines 460-508), returning
(`true` iff the checksum claim is rejected, the possibly-marked mbuf):
reject when `csum_start + csum_offset < eth + ip` or the first fragment
is shorter than it; reject non-IPv4 (after skipping a VLAN tag); on the
UDP checksum offset, reject a fragment shorter than
`csum_start + sizeof(udphdr)` and accept unmarked when the UDP checksum
field is zero, otherwise fall through to the TCP case, which marks
`CSUM_DATA_VALID | CSUM_PSEUDO_HDR` with `csum_data = 0xFFFF`; reject
any other offset. -/
def bad_rx_csum (m : Mbuf) (hdr : NetHdrCsum) : Bool × Mbuf :=
  let csum_len := hdr.csum_start + hdr.csum_offset
  if csum_len < ETHER_HDR_SIZE + IP_HDR_SIZE then (true, m)
  else if m.mh_len < csum_len then (true, m)
  else if rxEthType m.data ≠ ETHERTYPE_IP then (true, m)
  else if hdr.csum_offset = UDP_SUM_OFFSET then
    if m.mh_len < hdr.csum_start + UDP_HDR_SIZE then (true, m)
    else if be16 m.data (hdr.csum_start + UDP_SUM_OFFSET) = 0 then (false, m)
    else (false, markCsumOk m)
  else if hdr.csum_offset = TCP_SUM_OFFSET then (false, markCsumOk m)
  else (true, m)

/-- The decision procedure exactly as the claim words it: reject when
`csum_start + csum_offset` does not cover the ethernet-plus-IP headers
or exceeds the first fragment, when the (post-VLAN) EtherType is not
IPv4, or when `csum_offset` matches neither checksum field; accept
unmarked on the UDP offset with a zero UDP checksum field; otherwise
accept and mark. -/
def rx_csum_claimed_procedure (m : Mbuf) (hdr : NetHdrCsum) : Bool × Mbuf :=
  let csum_len := hdr.csum_start + hdr.csum_offset
  if csum_len < ETHER_HDR_SIZE + IP_HDR_SIZE ∨ m.mh_len < csum_len ∨
      rxEthType m.data ≠ ETHERTYPE_IP ∨
      (hdr.csum_offset ≠ UDP_SUM_OFFSET ∧ hdr.csum_offset ≠ TCP_SUM_OFFSET) then
    (true, m)
  else if hdr.csum_offset = UDP_SUM_OFFSET ∧
      be16 m.data (hdr.csum_start + UDP_SUM_OFFSET) = 0 then
    (false, m)
  else
    (false, markCsumOk m)

/-- The claim's decision procedure amended with the one rejection the
code also performs: on the UDP checksum offset, a first fragment shorter
than `csum_start + sizeof(udphdr)` is rejected before the UDP checksum
field is examined. -/
def rx_csum_amended_procedure (m : Mbuf) (hdr : NetHdrCsum) : Bool × Mbuf :=
  let csum_len := hdr.csum_start + hdr.csum_offset
  if csum_len < ETHER_HDR_SIZE + IP_HDR_SIZE ∨ m.mh_len < csum_len ∨
      rxEthType m.data ≠ ETHERTYPE_IP ∨
      (hdr.csum_offset ≠ UDP_SUM_OFFSET ∧ hdr.csum_offset ≠ TCP_SUM_OFFSET) ∨
      (hdr.csum_offset = UDP_SUM_OFFSET ∧
        m.mh_len < hdr.csum_start + UDP_HDR_SIZE) then
    (true, m)
  else if hdr.csum_offset = UDP_SUM_OFFSET ∧
      be16 m.data (hdr.csum_start + UDP_SUM_OFFSET) = 0 then
    (false, m)
  else
    (false, markCsumOk m)

/-- `net::pick_txq` (virtio-net source, lines 834-849): returns the
current CPU's index unchanged (the printf when `idx ≥ num_queues / 2`
only logs). -/
def pick_txq (cpuId : Nat) (numQueues : Nat) : Nat :=
  cpuId

/-! ## Transport core: PCI probe (virtio.cc) -/

/-- Modelled from the spec: `VIRTIO_PCI_ABI_VERSION` lives in
`drivers/virtio.hh`, which is not part of the sources; the legacy virtio
PCI ABI version is 0. -/
def VIRTIO_PCI_ABI_VERSION : Nat := 0
/-- Modelled from the spec: the lower bound of the valid virtio PCI
device-ID range (`drivers/virtio.hh`, not in the sources). -/
def VIRTIO_PCI_ID_MIN : Nat := 0x1000
/-- Modelled from the spec: the upper bound of the valid virtio PCI
device-ID range (`drivers/virtio.hh`, not in the sources). -/
def VIRTIO_PCI_ID_MAX : Nat := 0x103f

def VIRTIO_CONFIG_S_ACKNOWLEDGE : Nat := 1
def VIRTIO_CONFIG_S_DRIVER : Nat := 2
def VIRTIO_CONFIG_S_DRIVER_OK : Nat := 4

/-- The facts about a presented PCI device that
`virtio_driver::parse_pci_config` consults: whether the PCI layer's own
config parse succeeded, whether BAR1 is present, the ABI revision byte,
and the PCI device ID. -/
structure PciDev where
  pciParseOk : Bool
  bar1Present : Bool
  revision : Nat
  deviceId : Nat
deriving Repr, DecidableEq

/-- `virtio_driver::parse_pci_config` (virtio.cc lines 94-121): false on
PCI parse failure, missing BAR1, a revision other than the ABI version,
or a device ID outside `[VIRTIO_PCI_ID_MIN, VIRTIO_PCI_ID_MAX]`. -/
def parse_pci_config (d : PciDev) : Bool :=
  if ¬ d.pciParseOk then false
  else if ¬ d.bar1Present then false
  else if d.revision ≠ VIRTIO_PCI_ABI_VERSION then false
  else if d.deviceId < VIRTIO_PCI_ID_MIN ∨ VIRTIO_PCI_ID_MAX < d.deviceId then false
  else true

/-- Externally visible actions the `virtio_driver` constructor performs
on the device. -/
inductive DevAction
  | setBusMaster
  | msixEnable
  | statusWrite (v : Nat)
deriving Repr, DecidableEq

/-- The `virtio_driver` constructor body (virtio.cc lines 23-48): it
calls `parse_pci_config()` and discards the returned `bool`, then
unconditionally enables bus-mastering, enables MSI-X, resets the device
(`set_dev_status(0)`), and writes
`ACKNOWLEDGE | DRIVER` into the status register
(`add_dev_status` reads the status, which is 0 after the reset, and ORs
the bits in). -/
def virtio_driver_ctor_trace (d : PciDev) : List DevAction :=
  let _parsed := parse_pci_config d
  [DevAction.setBusMaster,
   DevAction.msixEnable,
   DevAction.statusWrite 0,
   DevAction.statusWrite
     (0 ||| (VIRTIO_CONFIG_S_ACKNOWLEDGE ||| VIRTIO_CONFIG_S_DRIVER))]

/-! ## Transport core: device status progression (C7)

The full bring-up of the rng device: the `virtio_driver` constructor
(reset, then `add_dev_status(ACKNOWLEDGE | DRIVER)`), then the `rng`
constructor (`probe_virt_queues()`, then
`add_dev_status(DRIVER_OK)`, virtio-rng.cc lines 16-29). -/

inductive BringupAction
  | statusReset
  | statusAdd (bits : Nat)
  | queueConfig
deriving Repr, DecidableEq

/-- The bring-up action sequence of the rng device, in program order
(virtio.cc lines 41-44, then virtio-rng.cc lines 21-24). -/
def rng_bringup : List BringupAction :=
  [BringupAction.statusReset,
   BringupAction.statusAdd (VIRTIO_CONFIG_S_ACKNOWLEDGE ||| VIRTIO_CONFIG_S_DRIVER),
   BringupAction.queueConfig,
   BringupAction.statusAdd VIRTIO_CONFIG_S_DRIVER_OK]

/-- Effect of one bring-up action on the status register
(`set_dev_status(0)` / `add_dev_status` = read-OR-write;
`queueConfig` does not touch the status byte). -/
def applyStatus (s : Nat) : BringupAction → Nat
  | BringupAction.statusReset => 0
  | BringupAction.statusAdd bits => s ||| bits
  | BringupAction.queueConfig => s

/-- The status register value after each bring-up action, starting from
`init`. -/
def statusTrace (init : Nat) : List BringupAction → List Nat
  | [] => []
  | a :: rest =>
    let s := applyStatus init a
    s :: statusTrace s rest

/-! ## Transport core: queue enumeration (virtio.cc probe_virt_queues) -/

/-- What the transport reads back while enumerating queues: the size the
device reports for each selected queue index, whether MSI-X is enabled,
and whether the MSI-X vector write for a queue index reads back
correctly. -/
structure QueueDev where
  msix : Bool
  qsize : Nat → Nat
  msixBindOk : Nat → Bool

/-- One configured queue as `probe_virt_queues` leaves it: its index,
its size, and the MSI-X vector bound to it (none without MSI-X). -/
structure ConfiguredQueue where
  index : Nat
  size : Nat
  msixVector : Option Nat
deriving Repr, DecidableEq

/-- The loop of `virtio_driver::probe_virt_queues` (virtio.cc lines
144-189), returning the queues it registers, in order: stop when
`_num_queues ≥ maxNr` (the `max_virtqueues_nr` cap); select the index
and read its size, stopping on size 0; allocate a vring; with MSI-X,
bind vector = queue index and abort the enumeration on a failed
read-back; count the queue and write its ring PFN; stop once
`_num_queues ≥ 2 · ncpus`.  `fuel` bounds the recursion; the caller
passes enough for the cap to fire first. -/
def probeLoop (d : QueueDev) (ncpus maxNr : Nat) : Nat → Nat → List ConfiguredQueue
  | _, 0 => []
  | numQueues, fuel + 1 =>
    if maxNr ≤ numQueues then []
    else
      let qsize := d.qsize numQueues
      if qsize = 0 then []
      else if d.msix ∧ ¬ d.msixBindOk numQueues then []
      else
        let q : ConfiguredQueue :=
          { index := numQueues
            size := qsize
            msixVector := if d.msix then some numQueues else none }
        if 2 * ncpus ≤ numQueues + 1 then [q]
        else q :: probeLoop d ncpus maxNr (numQueues + 1) fuel

/-- `virtio_driver::probe_virt_queues` starting from `_num_queues = 0`. -/
def probe_virt_queues (d : QueueDev) (ncpus maxNr : Nat) : List ConfiguredQueue :=
  probeLoop d ncpus maxNr 0 (maxNr + 1)

/-! ## Theorems -/

/-- Helper: when the `wait_for_queue` lambda body reports elements
found, the predicate holds on the state it leaves behind. -/
theorem waitBody_found_pred (s : WQState) (inj : Nat) (s' : WQState)
    (h : waitBody s inj = (true, s')) : used_ring_not_empty s' = true := by
  by_cases h0 : used_ring_not_empty s = true
  · simp [waitBody, h0] at h
    rw [← h]
    exact h0
  · simp only [Bool.not_eq_true] at h0
    by_cases h1 : used_ring_not_empty (inject (enableIntr s) inj) = true
    · simp [waitBody, h0, h1] at h
      rw [← h]
      simpa [used_ring_not_empty, disableIntr, inject, enableIntr] using h1
    · simp only [Bool.not_eq_true] at h1
      simp [waitBody, h0, h1] at h

/-- C1: `wait_for_queue` follows the check-enable-recheck discipline —
it evaluates the predicate; if false, enables interrupts on the queue,
re-evaluates the predicate, and if it is now true disables interrupts
and returns, otherwise suspends — and whenever it returns, the
predicate (`used_ring_not_empty`) holds on the queue at the moment of
return, even under spuriously injected completions (which only add used
elements and hence never falsify it). -/
theorem wait_for_queue_spec :
    (∀ s inj, used_ring_not_empty s = true → waitBody s inj = (true, s)) ∧
    (∀ s inj, used_ring_not_empty s = false →
      used_ring_not_empty (inject (enableIntr s) inj) = true →
      waitBody s inj = (true, ⟨s.used + inj, false⟩)) ∧
    (∀ s inj, used_ring_not_empty s = false →
      used_ring_not_empty (inject (enableIntr s) inj) = false →
      waitBody s inj = (false, ⟨s.used + inj, true⟩)) ∧
    (∀ sched s s', waitRun s sched = some s' → used_ring_not_empty s' = true) ∧
    (∀ s k, used_ring_not_empty s = true → used_ring_not_empty (inject s k) = true) := by
  refine ⟨?_, ?_, ?_, ?_, ?_⟩
  · intro s inj h
    simp [waitBody, h]
  · intro s inj h0 h1
    simp only [used_ring_not_empty, decide_eq_false_iff_not] at h0
    simp only [used_ring_not_empty, inject, enableIntr, decide_eq_true_eq] at h1
    have hB : 0 < s.used ∨ 0 < inj := by omega
    simp [waitBody, used_ring_not_empty, inject, enableIntr, disableIntr, h0, hB]
    omega
  · intro s inj h0 h1
    simp only [used_ring_not_empty, decide_eq_false_iff_not] at h0
    simp only [used_ring_not_empty, inject, enableIntr, decide_eq_false_iff_not] at h1
    have hB : ¬ (0 < s.used ∨ 0 < inj) := by omega
    simp [waitBody, used_ring_not_empty, inject, enableIntr, disableIntr, h0, hB]
    omega
  · intro sched
    induction sched with
    | nil => intro s s' h; simp [waitRun] at h
    | cons p rest ih =>
      intro s s' h
      obtain ⟨injSleep, injAfterEnable⟩ := p
      simp only [waitRun] at h
      rcases hb : waitBody (inject s injSleep) injAfterEnable with ⟨found, s1⟩
      rw [hb] at h
      cases found with
      | true =>
        simp only [Option.some.injEq] at h
        exact h ▸ waitBody_found_pred _ _ _ hb
      | false =>
        exact ih s1 s' h
  · intro s k h
    simp only [used_ring_not_empty, inject, decide_eq_true_eq] at *
    omega

/-- C1 witness: from an empty used ring, a completion injected between
the interrupt enable and the recheck makes `wait_for_queue` return with
the predicate true. -/
theorem wait_for_queue_spec_witness :
    waitRun ⟨0, false⟩ [(0, 2)] = some ⟨2, false⟩ ∧
      used_ring_not_empty ⟨2, false⟩ = true :=
  ⟨by decide, wait_for_queue_spec.2.2.2.1 [(0, 2)] ⟨0, false⟩ ⟨2, false⟩ (by decide)⟩

/-- C2: once its wait has established a non-empty pool,
`get_random_bytes` copies `min(|pool|, requested)` bytes from the front
of the pool, removes exactly those bytes, wakes one producer, and
returns that count; a partial read (`actual < requested`) is a legal
successful result, exhibited at pool `[7]`, request 2. -/
theorem get_random_bytes_spec (pool : List Nat) (size : Nat)
    (hpool : pool ≠ []) :
    (get_random_bytes pool size).ret = min pool.length size ∧
    (get_random_bytes pool size).copied = pool.take (min pool.length size) ∧
    (get_random_bytes pool size).pool = pool.drop (min pool.length size) ∧
    (get_random_bytes pool size).copied ++ (get_random_bytes pool size).pool = pool ∧
    (get_random_bytes pool size).producerWakes = 1 ∧
    ((get_random_bytes [7] 2).ret = 1 ∧ (get_random_bytes [7] 2).ret < 2) := by
  refine ⟨rfl, rfl, rfl, ?_, rfl, by decide⟩
  simp [get_random_bytes]

/-- C2 witness: pool `[3, 5, 8]`, request 2 — two front bytes copied
out, one remains, one producer wakeup, return 2. -/
theorem get_random_bytes_spec_witness :
    (get_random_bytes [3, 5, 8] 2).ret = min 3 2 ∧
    (get_random_bytes [3, 5, 8] 2).copied = [3, 5] ∧
    (get_random_bytes [3, 5, 8] 2).pool = [8] ∧
    (get_random_bytes [3, 5, 8] 2).copied ++ (get_random_bytes [3, 5, 8] 2).pool
      = [3, 5, 8] ∧
    (get_random_bytes [3, 5, 8] 2).producerWakes = 1 ∧
    ((get_random_bytes [7] 2).ret = 1 ∧ (get_random_bytes [7] 2).ret < 2) := by
  have h := get_random_bytes_spec [3, 5, 8] 2 (by decide)
  simpa using h

/-- C3: the entropy pool bound `|pool| ≤ P` is preserved by every
producer and consumer step — the producer only runs when `|pool| < P`
and appends at most the `P − |pool|` bytes it requested, the consumer
only removes bytes — and the producer never produces when
`|pool| = P`. -/
theorem entropy_pool_bound (P : Nat) :
    (∀ pool pool', rngStep P pool pool' →
      pool.length ≤ P → pool'.length ≤ P) ∧
    (∀ pool pool', producerStep P pool pool' → pool.length < P) := by
  constructor
  · intro pool pool' hstep hle
    cases hstep with
    | producer h =>
      cases h with
      | mk host hwait hlen =>
        simp only [refill, List.length_append]
        simp only [refillRequest] at hlen
        omega
    | consumer h =>
      cases h with
      | mk size hwait =>
        simp only [get_random_bytes, List.length_drop]
        omega
  · intro pool pool' hstep
    cases hstep with
    | mk host hwait hlen => exact hwait

/-- C3 witness: with capacity 3, refilling pool `[1, 2]` with the single
byte the device returned keeps the bound, and that producer step indeed
started below capacity. -/
theorem entropy_pool_bound_witness :
    (refill 3 [1, 2] [9]).length ≤ 3 ∧ ([1, 2] : List Nat).length < 3 := by
  have hstep : producerStep 3 [1, 2] (refill 3 [1, 2] [9]) :=
    producerStep.mk [1, 2] [9] (by decide) (by decide)
  exact ⟨(entropy_pool_bound 3).1 [1, 2] (refill 3 [1, 2] [9])
      (rngStep.producer hstep) (by decide),
    (entropy_pool_bound 3).2 [1, 2] (refill 3 [1, 2] [9]) hstep⟩

/-- C10: `get_random_bytes` with requested size 0 still runs under the
non-empty-pool wait guard (the guard `|pool| > 0` does not depend on the
requested size), removes nothing from the pool, copies nothing, still
wakes one producer, and returns 0. -/
theorem get_random_bytes_zero (pool : List Nat) (hpool : pool ≠ []) :
    (get_random_bytes pool 0).ret = 0 ∧
    (get_random_bytes pool 0).pool = pool ∧
    (get_random_bytes pool 0).copied = [] ∧
    (get_random_bytes pool 0).producerWakes = 1 := by
  simp [get_random_bytes]

/-- C10 witness: pool `[4, 2]`, request 0. -/
theorem get_random_bytes_zero_witness :
    (get_random_bytes [4, 2] 0).ret = 0 ∧
    (get_random_bytes [4, 2] 0).pool = [4, 2] ∧
    (get_random_bytes [4, 2] 0).copied = [] ∧
    (get_random_bytes [4, 2] 0).producerWakes = 1 :=
  get_random_bytes_zero [4, 2] (by decide)

/-- C5: for a TX enqueue that reaches the publish stage, when the
available ring lacks room for the staged scatter-gather: with
completions pending on the used ring, `tx_locked` drains them via
`tx_gc` and then makes exactly one publish attempt (`tx_publish`, the
single `add_buf` followed by the statistics switch — no further retry);
with no completions pending it fails with `ENOBUFS`, increments
`tx_drops` by exactly 1 and leaves the queue untouched; and a failed
publish attempt itself yields `ENOBUFS` with `tx_drops` incremented by
exactly 1 and no retry. -/
theorem tx_locked_queue_full (vq : TxVq) (r : TxReq) (st : TxStats)
    (hoff : r.offloadRequested = false ∨ r.offloadOk = true)
    (hroom : avail_ring_has_room vq r.sgSize = false) :
    (tx_used_ring_not_empty vq = true →
      tx_locked vq r st = tx_publish (tx_gc vq) r st) ∧
    (tx_used_ring_not_empty vq = false →
      tx_locked vq r st =
        (ENOBUFS, vq, { st with tx_drops := st.tx_drops + 1 })) ∧
    (∀ vq', add_buf vq' r.sgSize = none →
      tx_publish vq' r st =
        (ENOBUFS, vq', { st with tx_drops := st.tx_drops + 1 })) := by
  refine ⟨?_, ?_, ?_⟩
  · intro hused
    rcases hoff with h | h <;> simp [tx_locked, h, hroom, hused]
  · intro hused
    rcases hoff with h | h <;> simp [tx_locked, h, hroom, hused]
  · intro vq' hadd
    simp [tx_publish, hadd]

/-- C5 witness: an empty TX ring (`free = 0`) with no pending
completions: staging one descriptor fails with `ENOBUFS` and bumps
`tx_drops` from 0 to 1. -/
theorem tx_locked_queue_full_witness :
    tx_locked ⟨0, []⟩ ⟨1, 10, false, true, false, 0⟩ ⟨0, 0, 0, 0, 0, 0⟩ =
      (ENOBUFS, ⟨0, []⟩, ⟨0, 0, 1, 0, 0, 0⟩) := by
  have h := (tx_locked_queue_full ⟨0, []⟩ ⟨1, 10, false, true, false, 0⟩
      ⟨0, 0, 0, 0, 0, 0⟩ (Or.inl rfl) (by decide)).2.1 (by decide)
  simpa using h

/-- C9: `pick_txq` does not reduce the CPU index modulo the number of
TX queues: on CPU 2 with `_num_queues = 2` (one RX/TX pair) it returns
2, which is not below `num_queues / 2 = 1` and differs from the claimed
`cpu % (num_queues / 2) = 0`, so `_txq[pick_txq(...)]` is out of
bounds there. -/
theorem pick_txq_out_of_bounds :
    pick_txq 2 2 = 2 ∧
    ¬ pick_txq 2 2 < 2 / 2 ∧
    pick_txq 2 2 ≠ 2 % (2 / 2) := by
  decide

/-- C4: the `virtio_driver` constructor discards the result of
`parse_pci_config`: for a device with a wrong ABI revision
(revision 1 instead of 0), the parse rejects it, yet the constructor
trace still enables bus-mastering, enables MSI-X and performs both
status writes (the reset and `ACKNOWLEDGE | DRIVER` = 3) — the device
is not abandoned and registration is partial. -/
theorem probe_ignores_parse_failure :
    parse_pci_config ⟨true, true, 1, 0x1000⟩ = false ∧
    virtio_driver_ctor_trace ⟨true, true, 1, 0x1000⟩ =
      [DevAction.setBusMaster, DevAction.msixEnable,
       DevAction.statusWrite 0, DevAction.statusWrite 3] := by
  decide

/-- C7 counterexample: in the rng bring-up no reachable status value has
`ACKNOWLEDGE` set without `DRIVER` — the two bits are set by one
combined write (virtio.cc line 44), so `DRIVER` is never a subsequent
separate transition after `ACKNOWLEDGE`. -/
theorem status_no_separate_driver_transition :
    ¬ ∃ s ∈ statusTrace 0 rng_bringup,
      s &&& VIRTIO_CONFIG_S_ACKNOWLEDGE ≠ 0 ∧
      s &&& VIRTIO_CONFIG_S_DRIVER = 0 := by
  decide

/-- C7 amended: after the reset to 0 the driver sets `ACKNOWLEDGE` and
`DRIVER` together in a single status write, before queue configuration;
`DRIVER_OK` is set last and appears in no earlier status value; and the
status value sequence `[0, 3, 3, 7]` is bitwise monotone — no bit once
set is cleared except by the reset to 0. -/
theorem rng_status_progression :
    statusTrace 0 rng_bringup = [0, 3, 3, 7] ∧
    (∀ i < 3, (statusTrace 0 rng_bringup).getD i 0 &&&
        (statusTrace 0 rng_bringup).getD (i + 1) 0 =
      (statusTrace 0 rng_bringup).getD i 0) ∧
    rng_bringup =
      [BringupAction.statusReset, BringupAction.statusAdd 3,
       BringupAction.queueConfig, BringupAction.statusAdd 4] ∧
    (∀ s ∈ (statusTrace 0 rng_bringup).take 3,
      s &&& VIRTIO_CONFIG_S_DRIVER_OK = 0) ∧
    (statusTrace 0 rng_bringup).getLast? =
      some (VIRTIO_CONFIG_S_ACKNOWLEDGE ||| VIRTIO_CONFIG_S_DRIVER |||
        VIRTIO_CONFIG_S_DRIVER_OK) := by
  decide

/-- A device whose every queue reports size 256 and every MSI-X bind
read-back succeeds, presented without MSI-X. -/
def allQueuesDev : QueueDev :=
  ⟨false, fun _ => 256, fun _ => true⟩

/-- C8: with one CPU and a device reporting non-zero sizes for every
queue index, `probe_virt_queues` registers exactly queues 0 and 1 and
stops — the cap is `2 · ncpus` unconditionally; the code never consults
a control-queue feature, so the `+1` its own comment (virtio.cc lines
184-185) calls for never happens. -/
theorem probe_stops_at_two_ncpus :
    probe_virt_queues allQueuesDev 1 64 =
      [⟨0, 256, none⟩, ⟨1, 256, none⟩] ∧
    (probe_virt_queues allQueuesDev 1 64).length = 2 := by
  decide

/-- The 34-byte IPv4 frame of the C6 counterexample: EtherType `0x0800`
at bytes 12-13, every other byte zero. -/
def c6Frame : List Nat :=
  List.replicate 12 0 ++ [8, 0] ++ List.replicate 20 0

def c6Mbuf : Mbuf := ⟨34, c6Frame, 0, 0⟩

def c6Hdr : NetHdrCsum := ⟨28, 6⟩

/-- C6 counterexample: a 34-byte IPv4 first fragment with
`csum_start = 28`, `csum_offset = 6` (the UDP checksum offset): none of
the claim's rejection conditions hold (`csum_len = 34` covers the
eth+ip headers and fits the fragment, the EtherType is IPv4, the offset
is the UDP one) and the UDP checksum field reads zero, so the claimed
procedure accepts the packet unmarked — but `bad_rx_csum` rejects it,
because the fragment is shorter than
`csum_start + sizeof(udphdr) = 36`. -/
theorem bad_rx_csum_claim_counterexample :
    (bad_rx_csum c6Mbuf c6Hdr).1 = true ∧
    (rx_csum_claimed_procedure c6Mbuf c6Hdr).1 = false ∧
    bad_rx_csum c6Mbuf c6Hdr ≠ rx_csum_claimed_procedure c6Mbuf c6Hdr := by
  decide

/-- C6 amended: `bad_rx_csum` implements exactly the claim's decision
procedure amended with one additional rejection — on the UDP checksum
offset it also rejects when the first fragment is shorter than
`csum_start + sizeof(udphdr)` — and is otherwise as claimed: the other
rejections, the unmarked accept on a zero UDP checksum, and the marked
accept (`CSUM_DATA_VALID | CSUM_PSEUDO_HDR`, `csum_data = 0xFFFF`)
on the TCP offset or a non-zero UDP checksum. -/
theorem bad_rx_csum_characterization (m : Mbuf) (hdr : NetHdrCsum) :
    bad_rx_csum m hdr = rx_csum_amended_procedure m hdr := by
  simp only [bad_rx_csum, rx_csum_amended_procedure]
  split_ifs <;> first | rfl | omega

end Virtio
